import Mathlib

/-!
Verification of the AirtomSDK request-authentication layer.

The development shallowly embeds the three Python source files
(`HttpClient.py`, `OpenAPIKeyClient.py`, `OpenAPITokenClient.py`).
Pure computations (signing, canonicalization, header construction,
timeout/proxy resolution, response classification) become Lean
functions; the nondeterministic inputs that Python draws from the
environment (the clock `time.time()` and the nonce `uuid.uuid4()`)
become explicit parameters (`tms` is the clock reading in whole
milliseconds since the epoch; `nonce` is the nonce string).
External collaborators (`hashlib`, `hmac`, `urllib.parse`, `json`,
`requests`) are modelled by executable Lean definitions of the
behaviour the code relies on; SHA-256 and HMAC-SHA256 are implemented
in full from FIPS 180-4 / RFC 2104.
-/

namespace Airtom

/-! ## SHA-256 (models Python `hashlib.sha256`, FIPS 180-4)

Bytes are `Nat`s below 256, 32-bit words are `Nat`s reduced mod `2 ^ 32`. -/

/-- Reduce to a 32-bit word. -/
def u32 (n : Nat) : Nat := n % 4294967296

/-- Right-rotation of a 32-bit word. -/
def rotr (n x : Nat) : Nat := u32 ((x >>> n) ||| (x <<< (32 - n)))

/-- SHA-256 `Ch` function. -/
def shaCh (x y z : Nat) : Nat := (x &&& y) ^^^ ((4294967295 ^^^ x) &&& z)

/-- SHA-256 `Maj` function. -/
def shaMaj (x y z : Nat) : Nat := (x &&& y) ^^^ (x &&& z) ^^^ (y &&& z)

/-- SHA-256 `Σ0`. -/
def bigSigma0 (x : Nat) : Nat := rotr 2 x ^^^ rotr 13 x ^^^ rotr 22 x

/-- SHA-256 `Σ1`. -/
def bigSigma1 (x : Nat) : Nat := rotr 6 x ^^^ rotr 11 x ^^^ rotr 25 x

/-- SHA-256 `σ0`. -/
def smallSigma0 (x : Nat) : Nat := rotr 7 x ^^^ rotr 18 x ^^^ (x >>> 3)

/-- SHA-256 `σ1`. -/
def smallSigma1 (x : Nat) : Nat := rotr 17 x ^^^ rotr 19 x ^^^ (x >>> 10)

/-- The 64 SHA-256 round constants, in decimal. -/
def shaK : List Nat :=
  [1116352408, 1899447441, 3049323471, 3921009573, 961987163,
   1508970993, 2453635748, 2870763221, 3624381080, 310598401,
   607225278, 1426881987, 1925078388, 2162078206, 2614888103,
   3248222580, 3835390401, 4022224774, 264347078, 604807628,
   770255983, 1249150122, 1555081692, 1996064986, 2554220882,
   2821834349, 2952996808, 3210313671, 3336571891, 3584528711,
   113926993, 338241895, 666307205, 773529912, 1294757372,
   1396182291, 1695183700, 1986661051, 2177026350, 2456956037,
   2730485921, 2820302411, 3259730800, 3345764771, 3516065817,
   3600352804, 4094571909, 275423344, 430227734, 506948616,
   659060556, 883997877, 958139571, 1322822218, 1537002063,
   1747873779, 1955562222, 2024104815, 2227730452, 2361852424,
   2428436474, 2756734187, 3204031479, 3329325298]

/-- The eight 32-bit working variables of SHA-256. -/
structure ShaState where
  a : Nat
  b : Nat
  c : Nat
  d : Nat
  e : Nat
  f : Nat
  g : Nat
  h : Nat

/-- SHA-256 initial hash value, in decimal. -/
def shaInit : ShaState :=
  ⟨1779033703, 3144134277, 1013904242, 2773480762,
   1359893119, 2600822924, 528734635, 1541459225⟩

/-- One SHA-256 compression round; `wk` is the pair (round constant, schedule word). -/
def shaRound (st : ShaState) (wk : Nat × Nat) : ShaState :=
  let t1 := u32 (st.h + bigSigma1 st.e + shaCh st.e st.f st.g + wk.2 + wk.1)
  let t2 := u32 (bigSigma0 st.a + shaMaj st.a st.b st.c)
  ⟨u32 (t1 + t2), st.a, st.b, st.c, u32 (st.d + t1), st.e, st.f, st.g⟩

/-- Extend the 16 message words to the 64-entry message schedule (fuel-driven). -/
def extendW : Nat → List Nat → List Nat
  | 0, w => w
  | n+1, w =>
    let t := w.length
    let x := u32 (smallSigma1 (w.getD (t - 2) 0) + w.getD (t - 7) 0 +
                  smallSigma0 (w.getD (t - 15) 0) + w.getD (t - 16) 0)
    extendW n (w ++ [x])

/-- Wordwise modular addition of two states. -/
def addStates (x y : ShaState) : ShaState :=
  ⟨u32 (x.a + y.a), u32 (x.b + y.b), u32 (x.c + y.c), u32 (x.d + y.d),
   u32 (x.e + y.e), u32 (x.f + y.f), u32 (x.g + y.g), u32 (x.h + y.h)⟩

/-- Compress one 16-word block into the running state. -/
def compressBlock (st : ShaState) (ws : List Nat) : ShaState :=
  addStates st (((shaK.zip (extendW 48 ws)).foldl shaRound st))

/-- Group bytes four at a time into big-endian 32-bit words (fuel-driven). -/
def wordsOfBytes : Nat → List Nat → List Nat
  | 0, _ => []
  | _, [] => []
  | fuel+1, b0 :: b1 :: b2 :: b3 :: rest =>
      (((b0 * 256 + b1) * 256 + b2) * 256 + b3) :: wordsOfBytes fuel rest
  | _+1, _ => []

/-- Split a byte list into 64-byte blocks (fuel-driven). -/
def blocksOfBytes : Nat → List Nat → List (List Nat)
  | 0, _ => []
  | _, [] => []
  | fuel+1, l => l.take 64 :: blocksOfBytes fuel (l.drop 64)

/-- SHA-256 message padding: `0x80`, zeros, then the 64-bit big-endian bit length. -/
def padMessage (msg : List Nat) : List Nat :=
  let len := msg.length
  let zeros := (119 - len % 64) % 64
  let bitLen := 8 * len
  msg ++ [0x80] ++ List.replicate zeros 0 ++
    [bitLen / 2^56 % 256, bitLen / 2^48 % 256, bitLen / 2^40 % 256, bitLen / 2^32 % 256,
     bitLen / 2^24 % 256, bitLen / 2^16 % 256, bitLen / 2^8 % 256, bitLen % 256]

/-- Big-endian bytes of a 32-bit word. -/
def wordBytes (w : Nat) : List Nat := [w / 2^24 % 256, w / 2^16 % 256, w / 2^8 % 256, w % 256]

/-- SHA-256 digest (32 bytes) of a byte string. -/
def sha256Bytes (msg : List Nat) : List Nat :=
  let padded := padMessage msg
  let final := (blocksOfBytes padded.length padded).foldl
    (fun st blk => compressBlock st (wordsOfBytes blk.length blk)) shaInit
  wordBytes final.a ++ wordBytes final.b ++ wordBytes final.c ++ wordBytes final.d ++
    wordBytes final.e ++ wordBytes final.f ++ wordBytes final.g ++ wordBytes final.h

/-! ## UTF-8 and hexadecimal rendering -/

/-- UTF-8 encoding of a single code point. -/
def utf8Char (n : Nat) : List Nat :=
  if n < 128 then [n]
  else if n < 2048 then [192 + n / 64, 128 + n % 64]
  else if n < 65536 then [224 + n / 4096, 128 + n / 64 % 64, 128 + n % 64]
  else [240 + n / 262144, 128 + n / 4096 % 64, 128 + n / 64 % 64, 128 + n % 64]

/-- UTF-8 bytes of a string (models Python `str.encode`). -/
def utf8Str (s : String) : List Nat := (s.data.map (fun c => utf8Char c.toNat)).flatten

/-- Lowercase hexadecimal digit. -/
def hexDigitL (n : Nat) : Char := "0123456789abcdef".data.getD n '0'

/-- Uppercase hexadecimal digit. -/
def hexDigitU (n : Nat) : Char := "0123456789ABCDEF".data.getD n '0'

/-- The two lowercase hex characters of one byte. -/
def hexPairL (b : Nat) : List Char := [hexDigitL (b / 16 % 16), hexDigitL (b % 16)]

/-- Lowercase hex string of a byte list (models `.hexdigest()`). -/
def bytesToHexL (bs : List Nat) : String := String.mk ((bs.map hexPairL).flatten)

/-- Hex SHA-256 digest of the UTF-8 bytes of a string:
models `hashlib.sha256(s.encode('utf-8')).hexdigest()`. -/
def sha256Hex (s : String) : String := bytesToHexL (sha256Bytes (utf8Str s))

/-- HMAC-SHA256 (RFC 2104) over byte strings; models Python `hmac.new(key, msg, hashlib.sha256)`. -/
def hmacSha256Bytes (key msg : List Nat) : List Nat :=
  let k0 := if 64 < key.length then sha256Bytes key else key
  let kp := k0 ++ List.replicate (64 - k0.length) 0
  sha256Bytes ((kp.map (fun b => b ^^^ 0x5c)) ++ sha256Bytes ((kp.map (fun b => b ^^^ 0x36)) ++ msg))

/-- Hex HMAC-SHA256 of UTF-8 strings: models
`hmac.new(secret.encode('utf-8'), text.encode('utf-8'), hashlib.sha256).hexdigest()`. -/
def hmacSha256Hex (secret text : String) : String :=
  bytesToHexL (hmacSha256Bytes (utf8Str secret) (utf8Str text))

/-! ## Python helpers used by the sources -/

/-- ASCII uppercasing of one character. -/
def pyUpperChar (c : Char) : Char :=
  if 97 ≤ c.toNat ∧ c.toNat ≤ 122 then Char.ofNat (c.toNat - 32) else c

/-- Python `str.upper()` on the ASCII method names this SDK uses. -/
def pyUpper (s : String) : String := String.mk (s.data.map pyUpperChar)

/-- Strip leading and trailing whitespace from a character list
(Python `str.strip()` on ASCII whitespace). -/
def trimChars (l : List Char) : List Char :=
  ((l.dropWhile Char.isWhitespace).reverse.dropWhile Char.isWhitespace).reverse

/-- Split a character list on every occurrence of `sep`
(Python `str.split(sep)` for a one-character separator). -/
def splitOnChar (sep : Char) : List Char → List (List Char)
  | [] => [[]]
  | c :: cs =>
    let r := splitOnChar sep cs
    if c = sep then [] :: r
    else (c :: r.headD []) :: r.tail

/-- Python `str.split(sep)` for a one-character separator. -/
def pySplit (sep : Char) (s : String) : List String := (splitOnChar sep s.data).map String.mk

/-- Python integer-literal parsing as used by `int(proxy_parts[1])` in
`HttpClient.__init__`: surrounding whitespace is stripped, an optional sign is
allowed, then at least one decimal digit.  (`int()` additionally accepts
underscore separators between digits and non-ASCII decimal digits; those forms
are outside this model.) -/
def pyInt (s : String) : Option Int :=
  let t := trimChars s.data
  let signAndDigits : Int × List Char :=
    match t with
    | '+' :: rest => (1, rest)
    | '-' :: rest => (-1, rest)
    | l => (1, l)
  if signAndDigits.2 ≠ [] ∧ signAndDigits.2.all (fun c => c.isDigit) then
    some (signAndDigits.1 * (signAndDigits.2.foldl (fun acc c => acc * 10 + (c.toNat - 48)) 0 : Nat))
  else
    none

/-- Python truthiness of an optional integer (`None` and `0` are falsy). -/
def pyTruthyInt : Option Int → Bool
  | none => false
  | some v => v ≠ 0

/-- Python `str.lstrip('/')`. -/
def lstripSlashes (s : String) : String := String.mk (s.data.dropWhile (fun c => c = '/'))

/-- Python `str.rstrip('/')`. -/
def rstripSlashes (s : String) : String :=
  String.mk ((s.data.reverse.dropWhile (fun c => c = '/')).reverse)

/-- The clients' base-url normalization `base_url.rstrip('/') + '/'`. -/
def pyBaseUrl (base_url : String) : String := rstripSlashes base_url ++ "/"

/-- Replace the value of a key in an association list, keeping its position, or
append the binding at the end — exactly how assignment into a Python `dict`
behaves. -/
def setKey : List (String × String) → String → String → List (String × String)
  | [], k, v => [(k, v)]
  | (k1, v1) :: rest, k, v =>
    if k1 = k then (k, v) :: rest else (k1, v1) :: setKey rest k v

/-- Python `dict.update`: fold the update pairs into the base dictionary. -/
def dictUpdate (base upd : List (String × String)) : List (String × String) :=
  upd.foldl (fun acc kv => setKey acc kv.1 kv.2) base

/-- Python `dict` lookup, returning the value bound to the key, if any. -/
def headerLookup (k : String) : List (String × String) → Option String
  | [] => none
  | (k1, v) :: rest => if k1 = k then some v else headerLookup k rest

/-- Does an `Except` hold an error? -/
def exceptIsError {ε α : Type} : Except ε α → Bool
  | Except.error _ => true
  | Except.ok _ => false

/-! ## URL resolution (models `urllib.parse.urljoin` / `urlparse`)

The clients only ever join a base URL normalized to end in `/` with a relative
reference stripped of leading slashes, so the join model covers exactly that
shape: a reference that itself carries a scheme replaces the base, any other
reference is appended.  Dot-segment normalization and netloc-relative
references are outside the model. -/

/-- Split a character list at the first occurrence of `sep`; the second
component is `none` when `sep` does not occur. -/
def breakAt (sep : Char) : List Char → List Char × Option (List Char)
  | [] => ([], none)
  | c :: cs =>
    if c = sep then ([], some cs)
    else
      let r := breakAt sep cs
      (c :: r.1, r.2)

/-- The remainder after a leading `scheme://`, when the string starts with one. -/
def afterScheme (l : List Char) : Option (List Char) :=
  match breakAt ':' l with
  | (pre, some ('/' :: '/' :: rest)) =>
    if pre ≠ [] ∧ pre.all (fun c => c.isAlphanum) then some rest else none
  | _ => none

/-- Does the string begin with a `scheme://` part? -/
def hasUrlScheme (s : String) : Bool := (afterScheme s.data).isSome

/-- Model of `urllib.parse.urljoin` for the shapes this SDK produces (see the
section comment). -/
def urljoinModel (base rel : String) : String :=
  if hasUrlScheme rel then rel else base ++ rel

/-- The components of a parsed URL that the SDK reads. -/
structure UrlParts where
  path : String
  query : String
  frag : String

/-- Model of `urllib.parse.urlparse` for absolute http(s) URLs: the fragment
starts at the first `#`, the query at the first `?` before it, the netloc runs
from `scheme://` to the next `/`, and the path is the rest. -/
def urlparseModel (s : String) : UrlParts :=
  let f := breakAt '#' s.data
  let q := breakAt '?' f.1
  let pathL :=
    match afterScheme q.1 with
    | some rest => rest.dropWhile (fun c => c ≠ '/')
    | none => q.1
  { path := String.mk pathL
    query := String.mk (q.2.getD [])
    frag := String.mk (f.2.getD []) }

/-! ## JSON serialization and form encoding (external collaborators)

`json.dumps(data, ensure_ascii=False)` and the form-urlencoding performed by
`requests` when `data` is a mapping are modelled for string-valued mappings,
which is enough to express the signed-versus-transmitted-body claims. -/

/-- One character of a Python `json.dumps` string literal. -/
def jsonEscapeChar (c : Char) : String :=
  if c = '"' then "\\\""
  else if c = '\\' then "\\\\"
  else if c = '\n' then "\\n"
  else if c = '\t' then "\\t"
  else if c = '\r' then "\\r"
  else if c.toNat = 8 then "\\b"
  else if c.toNat = 12 then "\\f"
  else if c.toNat < 32 then "\\u00" ++ String.mk (hexPairL c.toNat)
  else String.singleton c

/-- A Python `json.dumps` string literal (with `ensure_ascii=False`). -/
def jsonStringLit (s : String) : String :=
  "\"" ++ String.join (s.data.map jsonEscapeChar) ++ "\""

/-- `json.dumps` of a string-valued dict with `ensure_ascii=False`: items in
insertion order, item separator `", "`, key separator `": "`. -/
def pyJsonDumpsStrDict (fields : List (String × String)) : String :=
  "\x7b" ++ String.intercalate ", "
    (fields.map (fun kv => jsonStringLit kv.1 ++ ": " ++ jsonStringLit kv.2)) ++ "\x7d"

/-- Characters `urllib.parse.quote_plus` leaves unencoded (ASCII alphanumerics
and `_.-~`). -/
def isUrlSafe (c : Char) : Bool :=
  c.isAlpha || c.isDigit || c = '_' || c = '.' || c = '-' || c = '~'

/-- The two uppercase hex characters of one byte. -/
def hexPairU (b : Nat) : List Char := [hexDigitU (b / 16 % 16), hexDigitU (b % 16)]

/-- `quote_plus` on one character: space becomes `+`, safe characters pass
through, everything else is percent-encoded bytewise in uppercase hex. -/
def quotePlusChar (c : Char) : List Char :=
  if c = ' ' then ['+']
  else if isUrlSafe c then [c]
  else ((utf8Char c.toNat).map (fun b => '%' :: hexPairU b)).flatten

/-- `urllib.parse.quote_plus` on a string. -/
def quotePlus (s : String) : String := String.mk ((s.data.map quotePlusChar).flatten)

/-- The form-urlencoded body `requests` transmits for a string-valued dict
passed as `data` (`urllib.parse.urlencode` with `quote_plus`): the
`k=v` pieces joined by `&`. -/
def urlencodeForm : List (String × String) → String
  | [] => ""
  | kv :: rest =>
    match rest with
    | [] => quotePlus kv.1 ++ "=" ++ quotePlus kv.2
    | _ :: _ => quotePlus kv.1 ++ "=" ++ quotePlus kv.2 ++ "&" ++ urlencodeForm rest

/-! ## `HttpClient.py` -/

/-- `HttpClientOption` (HttpClient.py:13-44).  Timeouts are in milliseconds. -/
structure HttpClientOption where
  header : List (String × String)
  cookie : List (String × String)
  proxy_address : Option String
  socket_timeout : Option Int
  connect_timeout : Option Int
  ignore_ssl : Bool

/-- `HttpClientOption.__init__`: each argument is optional (`none` models an
omitted argument); `header`/`cookie` default to empty dicts and `ignore_ssl`
defaults to `True`. -/
def mkHttpClientOption (header cookie : Option (List (String × String)))
    (proxy_address : Option String) (socket_timeout connect_timeout : Option Int)
    (ignore_ssl : Option Bool) : HttpClientOption :=
  { header := header.getD []
    cookie := cookie.getD []
    proxy_address := proxy_address
    socket_timeout := socket_timeout
    connect_timeout := connect_timeout
    ignore_ssl := ignore_ssl.getD true }

/-- `default_socket_timeout = 60` seconds (HttpClient.py:42). -/
def default_socket_timeout : ℚ := 60

/-- `default_connect_timeout = 60` seconds (HttpClient.py:43). -/
def default_connect_timeout : ℚ := 60

/-- `HttpClient._build_timeout` (HttpClient.py:168-182): the pair
(connect timeout, read timeout) in seconds; a millisecond option value is
divided by 1000 when truthy, otherwise the 60-second default applies. -/
def build_timeout (o : HttpClientOption) : ℚ × ℚ :=
  (if pyTruthyInt o.connect_timeout then ((o.connect_timeout.getD 0 : Int) : ℚ) / 1000
   else default_connect_timeout,
   if pyTruthyInt o.socket_timeout then ((o.socket_timeout.getD 0 : Int) : ℚ) / 1000
   else default_socket_timeout)

/-- `self.session.verify = not self.option.ignore_ssl` (HttpClient.py:151). -/
def sessionVerify (o : HttpClientOption) : Bool := !o.ignore_ssl

/-- The proxy-configuration part of `HttpClient.__init__` (HttpClient.py:138-148):
a truthy `proxy_address` must split at `':'` into exactly two parts whose second
parses with `int()`; otherwise construction raises before any request. -/
def httpClientProxySetup (proxy_address : Option String) :
    Except String (Option (String × Int)) :=
  match proxy_address with
  | none => Except.ok none
  | some pa =>
    if pa = "" then Except.ok none
    else
      let parts := pySplit (Char.ofNat 58) pa
      if parts.length = 2 then
        match pyInt (parts.getD 1 "") with
        | some port => Except.ok (some (parts.getD 0 "", port))
        | none => Except.error "invalid literal for int() with base 10"
      else Except.error "请输入正确的proxyAddress地址 (格式: host:port)"

/-- The observable request a client hands to the transport: the transport verb
actually used, the resolved URL, the per-call headers, and the body string
placed on the wire (`none` when no body is sent). -/
structure DispatchedCall where
  verb : String
  url : String
  headers : List (String × String)
  body : Option String

/-- `HttpClient.get` (HttpClient.py:198-218): a GET carries the given headers
and no body. -/
def http_get (url : String) (headers : List (String × String)) : DispatchedCall :=
  { verb := "GET", url := url, headers := headers, body := none }

/-- `HttpClient.post_json` (HttpClient.py:220-254): a JSON content type is
merged under the caller headers and the body is `json.dumps(data)` (Python
serializes `None` as `"null"`). -/
def http_post_json {J : Type} (dumps : J → String) (url : String) (data : Option J)
    (headers : List (String × String)) : DispatchedCall :=
  { verb := "POST"
    url := url
    headers := dictUpdate [("Content-Type", "application/json; charset=utf-8")] headers
    body := some (match data with
      | some d => dumps d
      | none => "null") }

/-- `HttpClient.post_form` (HttpClient.py:256-286): a form content type is
merged under the caller headers and `requests` transmits the mapping
form-urlencoded. -/
def http_post_form (url : String) (data : List (String × String))
    (headers : List (String × String)) : DispatchedCall :=
  { verb := "POST"
    url := url
    headers := dictUpdate
      [("Content-Type", "application/x-www-form-urlencoded; charset=UTF-8")] headers
    body := some (urlencodeForm data) }

/-- The response fields the clients read (`HTTPResponse`, HttpClient.py:58-89):
the status code and the decoded body text. -/
structure HTTPResponse where
  status_code : Nat
  text : String

/-- A successful client result: either decoded JSON or the raw body text. -/
inductive RespValue (J : Type) where
  | json : J → RespValue J
  | text : String → RespValue J
deriving DecidableEq

/-- The response-classification block shared verbatim by every client operation
(e.g. OpenAPIKeyClient.py:112-120): status `>= 400` raises
`Exception(f"HTTP \x7bstatus\x7d: \x7btext\x7d")`, otherwise `response.json()`
is tried and a decode failure falls back to `response.text`.  The external JSON
decoder is the `decode` parameter (`none` models `json.JSONDecodeError`). -/
def classifyResponse {J : Type} (decode : String → Option J) (r : HTTPResponse) :
    Except String (RespValue J) :=
  if r.status_code ≥ 400 then
    Except.error ("HTTP " ++ toString r.status_code ++ ": " ++ r.text)
  else
    match decode r.text with
    | some j => Except.ok (RespValue.json j)
    | none => Except.ok (RespValue.text r.text)

/-! ## `OpenAPIKeyClient` (V1 scheme, OpenAPIKeyClient.py:14-201)

The clock reading `tms` (whole milliseconds since the epoch) and the nonce are
explicit parameters standing for `time.time()` and `uuid.uuid4()`. -/

/-- `OpenAPIKeyClient._generate_signature` (OpenAPIKeyClient.py:34-55):
hex HMAC-SHA256 of the text, keyed by the UTF-8 bytes of `api_secret`. -/
def generate_signature (api_secret text : String) : String := hmacSha256Hex api_secret text

/-- `OpenAPIKeyClient._build_auth_headers` (OpenAPIKeyClient.py:57-86).
`timestamp = str(int(time.time() * 1000))` is the millisecond clock reading;
the signed text is `api_key + timestamp + nonce + request_body`. -/
def build_auth_headers (api_key api_secret : String) (tms : Nat) (nonce : String)
    (request_body : String) : List (String × String) :=
  let timestamp := toString tms
  let sign_text := api_key ++ timestamp ++ nonce ++ request_body
  [("X-Api-Key", api_key),
   ("X-Timestamp", timestamp),
   ("X-Nonce", nonce),
   ("X-Signature", generate_signature api_secret sign_text),
   ("Content-Type", "application/json")]

/-- `OpenAPIKeyClient.get` (OpenAPIKeyClient.py:88-110): the request it hands to
the transport.  The body signed for a GET is the empty string and no body is
sent. -/
def keyClient_get (api_key api_secret base_url : String) (tms : Nat) (nonce url : String) :
    DispatchedCall :=
  let full_url := urljoinModel (pyBaseUrl base_url) (lstripSlashes url)
  http_get full_url (build_auth_headers api_key api_secret tms nonce "")

/-- `OpenAPIKeyClient.post` (OpenAPIKeyClient.py:122-144): the JSON rendering of
`data` is both the signed body and the transmitted body. -/
def keyClient_post (api_key api_secret base_url : String) (tms : Nat) (nonce url : String)
    (data : List (String × String)) : DispatchedCall :=
  let full_url := urljoinModel (pyBaseUrl base_url) (lstripSlashes url)
  let request_body := pyJsonDumpsStrDict data
  http_post_json pyJsonDumpsStrDict full_url (some data)
    (build_auth_headers api_key api_secret tms nonce request_body)

/-- `OpenAPIKeyClient.post_form` (OpenAPIKeyClient.py:156-188): the signature is
computed over `json.dumps(data)` while the transport transmits the mapping
form-urlencoded. -/
def keyClient_post_form (api_key api_secret base_url : String) (tms : Nat) (nonce url : String)
    (data : List (String × String)) : DispatchedCall :=
  let full_url := urljoinModel (pyBaseUrl base_url) (lstripSlashes url)
  let request_body := pyJsonDumpsStrDict data
  http_post_form full_url data (build_auth_headers api_key api_secret tms nonce request_body)

/-! ## `OpenAPIKeyClientV2` (V2 scheme, OpenAPIKeyClient.py:204-392) -/

/-- The V2 signing input string built at OpenAPIKeyClient.py:267-271:
`method.upper() + path + api_key + timestamp + nonce + body_hash`, where
`body_hash` is the hex SHA-256 of the body when the body string is truthy
(non-empty) and the empty string otherwise. -/
def v2_sign_text (api_key method path timestamp nonce body : String) : String :=
  let body_hash := if body = "" then "" else sha256Hex body
  pyUpper method ++ path ++ api_key ++ timestamp ++ nonce ++ body_hash

/-- `OpenAPIKeyClientV2._generate_signature_v2` (OpenAPIKeyClient.py:248-280):
hex HMAC-SHA256 of the V2 signing input, keyed by `api_secret`. -/
def generate_signature_v2 (api_key api_secret method path timestamp nonce body : String) :
    String :=
  hmacSha256Hex api_secret (v2_sign_text api_key method path timestamp nonce body)

/-- `OpenAPIKeyClientV2._build_auth_headers_v2` (OpenAPIKeyClient.py:282-315).
`timestamp = str(int(time.time()))` is the clock in whole seconds, i.e.
`tms / 1000`. -/
def build_auth_headers_v2 (api_key api_secret : String) (tms : Nat)
    (nonce method path body : String) : List (String × String) :=
  let timestamp := toString (tms / 1000)
  [("X-Api-Key", api_key),
   ("X-Timestamp", timestamp),
   ("X-Nonce", nonce),
   ("X-Signature", generate_signature_v2 api_key api_secret method path timestamp nonce body),
   ("Content-Type", "application/json")]

/-- The resolved URL of `OpenAPIKeyClientV2.request` (OpenAPIKeyClient.py:338). -/
def keyClientV2_full_url (base_url url : String) : String :=
  urljoinModel (pyBaseUrl base_url) (lstripSlashes url)

/-- The signed path of `OpenAPIKeyClientV2.request` (OpenAPIKeyClient.py:340-344):
the path component of the resolved URL, with `"?" + query` appended when the
query string is truthy. -/
def keyClientV2_path (base_url url : String) : String :=
  let pu := urlparseModel (keyClientV2_full_url base_url url)
  if pu.query ≠ "" then pu.path ++ "?" ++ pu.query else pu.path

/-- The request-body string of `OpenAPIKeyClientV2.request`
(OpenAPIKeyClient.py:346-349): empty when `data` is `None`, else
`json.dumps(data, ensure_ascii=False)` through the external encoder `dumps`. -/
def pyRequestBody {J : Type} (dumps : J → String) : Option J → String
  | none => ""
  | some d => dumps d

/-- What a V2 request produces before the network: the transport call and the
exact string that was HMAC-signed for it. -/
structure SentV2 where
  call : DispatchedCall
  sign_text : String

/-- `OpenAPIKeyClientV2.request` (OpenAPIKeyClient.py:317-368), up to the
transport.  GET and DELETE dispatch through `HttpClient.get` (no body), POST
and PUT through `HttpClient.post_json`; neither the PUT nor the DELETE branch
adds an `X-HTTP-Method-Override` header; any other method raises `ValueError`.
(The Python module imports `urljoin` but not `urlparse`, so in CPython line 341
raises `NameError` — here `urlparse` is resolved to `urllib.parse.urlparse`,
its evident referent, as `HttpClient.py` line 6 does.) -/
def keyClientV2_request {J : Type} (dumps : J → String)
    (api_key api_secret base_url : String) (tms : Nat) (nonce : String)
    (method url : String) (data : Option J) : Except String SentV2 :=
  let full_url := keyClientV2_full_url base_url url
  let path := keyClientV2_path base_url url
  let request_body := pyRequestBody dumps data
  let auth_headers := build_auth_headers_v2 api_key api_secret tms nonce method path request_body
  let st := v2_sign_text api_key method path (toString (tms / 1000)) nonce request_body
  if pyUpper method = "GET" then
    Except.ok ⟨http_get full_url auth_headers, st⟩
  else if pyUpper method = "POST" then
    Except.ok ⟨http_post_json dumps full_url data auth_headers, st⟩
  else if pyUpper method = "PUT" then
    Except.ok ⟨http_post_json dumps full_url data auth_headers, st⟩
  else if pyUpper method = "DELETE" then
    Except.ok ⟨http_get full_url auth_headers, st⟩
  else
    Except.error ("不支持的 HTTP 方法: " ++ method)

/-! ## `OpenAPITokenClient` / `OpenAPITokenClientV2` (OpenAPITokenClient.py) -/

/-- `OpenAPITokenClient.put` (OpenAPITokenClient.py:119-154): a POST through
`HttpClient.post_json` carrying `X-HTTP-Method-Override: PUT`. -/
def tokenClient_put {J : Type} (dumps : J → String) (base_url url : String) (data : J) :
    DispatchedCall :=
  let full_url := urljoinModel (pyBaseUrl base_url) (lstripSlashes url)
  http_post_json dumps full_url (some data) [("X-HTTP-Method-Override", "PUT")]

/-- `OpenAPITokenClient.delete` (OpenAPITokenClient.py:156-184): a GET carrying
`X-HTTP-Method-Override: DELETE`. -/
def tokenClient_delete (base_url url : String) : DispatchedCall :=
  let full_url := urljoinModel (pyBaseUrl base_url) (lstripSlashes url)
  http_get full_url [("X-HTTP-Method-Override", "DELETE")]

/-- `OpenAPITokenClientV2.request` (OpenAPITokenClient.py:307-344) up to the
transport; `jEmpty` stands for the empty dict of `data or \x7b\x7d`. -/
def tokenClientV2_request {J : Type} (dumps : J → String) (jEmpty : J)
    (base_url method url : String) (data : Option J) : Except String DispatchedCall :=
  let full_url := urljoinModel (pyBaseUrl base_url) (lstripSlashes url)
  if pyUpper method = "GET" then
    Except.ok (http_get full_url [])
  else if pyUpper method = "POST" then
    Except.ok (http_post_json dumps full_url (some (data.getD jEmpty)) [])
  else if pyUpper method = "PUT" then
    Except.ok (http_post_json dumps full_url (some (data.getD jEmpty))
      [("X-HTTP-Method-Override", "PUT")])
  else if pyUpper method = "DELETE" then
    Except.ok (http_get full_url [("X-HTTP-Method-Override", "DELETE")])
  else
    Except.error ("不支持的 HTTP 方法: " ++ method)

/-! ## Full pipelines through the response classifier -/

/-- `OpenAPIKeyClient.get` end to end: dispatch, then the shared
status/JSON classification of the transport's response. -/
def keyClient_get_run {J : Type} (decode : String → Option J)
    (transport : DispatchedCall → HTTPResponse)
    (api_key api_secret base_url : String) (tms : Nat) (nonce url : String) :
    Except String (RespValue J) :=
  classifyResponse decode (transport (keyClient_get api_key api_secret base_url tms nonce url))

/-- `OpenAPIKeyClientV2.request` end to end. -/
def keyClientV2_request_run {J : Type} (decode : String → Option J)
    (transport : DispatchedCall → HTTPResponse) (dumps : J → String)
    (api_key api_secret base_url : String) (tms : Nat) (nonce : String)
    (method url : String) (data : Option J) : Except String (RespValue J) :=
  match keyClientV2_request dumps api_key api_secret base_url tms nonce method url data with
  | Except.error e => Except.error e
  | Except.ok sent => classifyResponse decode (transport sent.call)

/-! ## Spec-side definitions

These restate the specification's words for the refinement-style claims about
the V2 canonicalization; the theorems below compare them with the definitions
translated from the source. -/

/-- The spec's `path_with_query`: the URL path component plus, if a query
string exists, a literal `?` followed by the raw query string. -/
def spec_path_with_query (full_url : String) : String :=
  let pu := urlparseModel full_url
  pu.path ++ (if pu.query = "" then "" else "?" ++ pu.query)

/-- The spec's `bodyHash`: the hex SHA-256 digest of the body, or the empty
string when the body is absent/empty. -/
def spec_body_hash (body : String) : String := if body = "" then "" else sha256Hex body

/-- The spec's V2 signing input:
`UPPERCASE(method) ++ path_with_query ++ key ++ timestamp ++ nonce ++ bodyHash`. -/
def specV2SigningInput (method full_url api_key timestamp nonce body : String) : String :=
  pyUpper method ++ spec_path_with_query full_url ++ api_key ++ timestamp ++ nonce ++
    spec_body_hash body

/-- The spec's V1 signing input: `key ++ timestamp ++ nonce ++ raw_body`,
plain concatenation with no delimiters. -/
def specV1SigningInput (api_key timestamp nonce raw_body : String) : String :=
  api_key ++ timestamp ++ nonce ++ raw_body

/-- Is every character of the string a lowercase hexadecimal digit? -/
def isLowerHex (s : String) : Bool :=
  s.data.all (fun c => "0123456789abcdef".data.contains c)

/-! ## Auxiliary lemmas -/

theorem getD_self_or_mem {α : Type} (l : List α) (n : Nat) (d : α) :
    l.getD n d ∈ l ∨ l.getD n d = d := by
  induction l generalizing n with
  | nil => right; simp [List.getD]
  | cons a t ih =>
    cases n with
    | zero => left; simp
    | succ m =>
      rcases ih m with h | h
      · left; simp [List.getD] at h ⊢; tauto
      · right; simpa [List.getD] using h

theorem hexDigitL_contains (n : Nat) :
    ("0123456789abcdef".data.contains (hexDigitL n)) = true := by
  unfold hexDigitL
  rcases getD_self_or_mem "0123456789abcdef".data n '0' with h | h
  · simpa using h
  · rw [h]; decide

theorem hexDigitU_ne_lcub (n : Nat) : hexDigitU n ≠ Char.ofNat 123 := by
  unfold hexDigitU
  rcases getD_self_or_mem "0123456789ABCDEF".data n '0' with h | h
  · intro he; rw [he] at h; revert h; decide
  · rw [h]; decide

theorem flatten_hexPairL_length (bs : List Nat) :
    ((bs.map hexPairL).flatten).length = 2 * bs.length := by
  induction bs with
  | nil => simp
  | cons b t ih => simp [hexPairL, ih]; omega

theorem sha256Bytes_length (msg : List Nat) : (sha256Bytes msg).length = 32 := by
  simp [sha256Bytes, wordBytes]

/-- Every hex SHA-256 digest is 64 characters long. -/
theorem sha256Hex_length (s : String) : (sha256Hex s).length = 64 := by
  show ((sha256Bytes (utf8Str s)).map hexPairL).flatten.length = 64
  rw [flatten_hexPairL_length, sha256Bytes_length]

theorem isLowerHex_bytesToHexL (bs : List Nat) : isLowerHex (bytesToHexL bs) = true := by
  show ((bs.map hexPairL).flatten).all _ = true
  induction bs with
  | nil => simp
  | cons b t ih =>
    simp only [List.map_cons, List.flatten_cons, List.all_append, ih, Bool.and_true]
    have h1 := hexDigitL_contains (b / 16 % 16)
    have h2 := hexDigitL_contains (b % 16)
    simp at h1 h2
    simp [hexPairL, List.all, h1, h2]

/-- HMAC-SHA256 hexdigests are lowercase hexadecimal. -/
theorem isLowerHex_hmac (secret text : String) : isLowerHex (hmacSha256Hex secret text) = true :=
  isLowerHex_bytesToHexL _

/-- The signed path computed by `OpenAPIKeyClientV2.request` coincides with the
spec's `path_with_query` of the resolved URL. -/
theorem keyClientV2_path_eq_spec (base_url url : String) :
    keyClientV2_path base_url url = spec_path_with_query (keyClientV2_full_url base_url url) := by
  unfold keyClientV2_path spec_path_with_query
  by_cases hq : (urlparseModel (keyClientV2_full_url base_url url)).query = "" <;>
    simp [hq, String.ext_iff, String.data_append]

/-- The V2 signing input built from the request's computed path coincides with
the spec's composed description. -/
theorem v2_sign_text_eq_spec (api_key method base_url url ts nonce body : String) :
    v2_sign_text api_key method (keyClientV2_path base_url url) ts nonce body =
      specV2SigningInput method (keyClientV2_full_url base_url url) api_key ts nonce body := by
  unfold v2_sign_text specV2SigningInput spec_body_hash
  rw [keyClientV2_path_eq_spec]

/-- An `Except` that is known (by evaluation) to hold a value equals
`Except.ok` of that value extracted through `toOption`. -/
theorem except_ok_getD {ε α : Type} (x : Except ε α) (d : α) (h : x.toOption.isSome = true) :
    x = Except.ok (x.toOption.getD d) := by
  cases x with
  | error e => simp [Except.toOption] at h
  | ok a => rfl

theorem lookup_sig_auth_v2 (api_key api_secret : String) (tms : Nat)
    (nonce method path body : String) :
    headerLookup "X-Signature" (build_auth_headers_v2 api_key api_secret tms nonce method path body) =
      some (generate_signature_v2 api_key api_secret method path (toString (tms / 1000)) nonce body) :=
  rfl

theorem lookup_sig_auth_v2_ct (ct api_key api_secret : String) (tms : Nat)
    (nonce method path body : String) :
    headerLookup "X-Signature"
        (dictUpdate [("Content-Type", ct)]
          (build_auth_headers_v2 api_key api_secret tms nonce method path body)) =
      some (generate_signature_v2 api_key api_secret method path (toString (tms / 1000)) nonce body) :=
  rfl

/-- Claim C1: every request issued through `OpenAPIKeyClientV2.request` HMAC-signs
exactly `UPPERCASE(method) ++ path_with_query ++ api_key ++ timestamp ++ nonce ++ bodyHash`,
where `path_with_query` is the resolved URL's path plus `?` and the raw query
exactly when a query is present, and the timestamp is the whole-second clock
reading `tms / 1000`; the `X-Signature` header is the lowercase hex HMAC-SHA256
of that string keyed by `api_secret`. -/
theorem v2_request_signing {J : Type} (dumps : J → String)
    (api_key api_secret base_url : String) (tms : Nat) (nonce method url : String)
    (data : Option J) (sent : SentV2)
    (h : keyClientV2_request dumps api_key api_secret base_url tms nonce method url data =
      Except.ok sent) :
    sent.sign_text = specV2SigningInput method (keyClientV2_full_url base_url url)
        api_key (toString (tms / 1000)) nonce (pyRequestBody dumps data) ∧
    headerLookup "X-Signature" sent.call.headers =
      some (hmacSha256Hex api_secret sent.sign_text) ∧
    isLowerHex (hmacSha256Hex api_secret sent.sign_text) = true := by
  simp only [keyClientV2_request] at h
  split at h
  · injection h with h2
    subst h2
    exact ⟨v2_sign_text_eq_spec _ _ _ _ _ _ _, lookup_sig_auth_v2 _ _ _ _ _ _ _,
      isLowerHex_hmac _ _⟩
  · split at h
    · injection h with h2
      subst h2
      exact ⟨v2_sign_text_eq_spec _ _ _ _ _ _ _,
        lookup_sig_auth_v2_ct "application/json; charset=utf-8" _ _ _ _ _ _ _,
        isLowerHex_hmac _ _⟩
    · split at h
      · injection h with h2
        subst h2
        exact ⟨v2_sign_text_eq_spec _ _ _ _ _ _ _,
          lookup_sig_auth_v2_ct "application/json; charset=utf-8" _ _ _ _ _ _ _,
          isLowerHex_hmac _ _⟩
      · split at h
        · injection h with h2
          subst h2
          exact ⟨v2_sign_text_eq_spec _ _ _ _ _ _ _, lookup_sig_auth_v2 _ _ _ _ _ _ _,
            isLowerHex_hmac _ _⟩
        · exact Except.noConfusion h

/-- The concrete V2 GET used to witness claim C1. -/
def c1SentW : SentV2 :=
  (keyClientV2_request (J := List (String × String)) pyJsonDumpsStrDict "demo-key" "demo-secret"
      "http://h/api" 1700000001234 "nonce0" "get" "v1/x?b=2&a=1" none).toOption.getD
    ⟨⟨"", "", [], none⟩, ""⟩

theorem v2_request_signing_witness :
    c1SentW.sign_text = specV2SigningInput "get" (keyClientV2_full_url "http://h/api" "v1/x?b=2&a=1")
        "demo-key" (toString (1700000001234 / 1000)) "nonce0"
        (pyRequestBody pyJsonDumpsStrDict none) ∧
    headerLookup "X-Signature" c1SentW.call.headers =
      some (hmacSha256Hex "demo-secret" c1SentW.sign_text) ∧
    isLowerHex (hmacSha256Hex "demo-secret" c1SentW.sign_text) = true :=
  v2_request_signing pyJsonDumpsStrDict "demo-key" "demo-secret" "http://h/api" 1700000001234
    "nonce0" "get" "v1/x?b=2&a=1" none c1SentW (except_ok_getD _ _ (by decide))

/-- Claim C2: under V2, an empty body contributes an empty `bodyHash` (the
signing input simply ends after the nonce), while a non-empty body contributes
the 64-character hex SHA-256 digest of its UTF-8 bytes, making the signing
input exactly 64 characters longer. -/
theorem v2_body_hash_rule (api_key method path ts nonce : String) :
    v2_sign_text api_key method path ts nonce "" =
      pyUpper method ++ path ++ api_key ++ ts ++ nonce ∧
    (∀ body : String, body ≠ "" →
      v2_sign_text api_key method path ts nonce body =
        pyUpper method ++ path ++ api_key ++ ts ++ nonce ++ sha256Hex body ∧
      (sha256Hex body).length = 64 ∧
      (v2_sign_text api_key method path ts nonce body).length =
        (v2_sign_text api_key method path ts nonce "").length + 64) ∧
    (∀ (J : Type) (dumps : J → String), pyRequestBody dumps (none : Option J) = "") := by
  refine ⟨?_, ?_, fun J dumps => rfl⟩
  · simp [v2_sign_text]
  · intro body hb
    refine ⟨by simp [v2_sign_text, hb], sha256Hex_length body, ?_⟩
    simp [v2_sign_text, hb, String.length_append, sha256Hex_length]

theorem v2_body_hash_rule_witness :
    ("x" : String) ≠ "" ∧
    (v2_sign_text "k" "get" "/p" "7" "n" "x" =
        pyUpper "get" ++ "/p" ++ "k" ++ "7" ++ "n" ++ sha256Hex "x" ∧
      (sha256Hex "x").length = 64 ∧
      (v2_sign_text "k" "get" "/p" "7" "n" "x").length =
        (v2_sign_text "k" "get" "/p" "7" "n" "").length + 64) :=
  ⟨by decide, (v2_body_hash_rule "k" "get" "/p" "7" "n").2.1 "x" (by decide)⟩

/-- Claim C3: the V1 scheme signs the undelimited concatenation
`api_key ++ timestamp ++ nonce ++ raw_body` with the millisecond clock reading
as timestamp, emits exactly the headers `X-Api-Key`, `X-Timestamp`, `X-Nonce`,
`X-Signature` (lowercase hex HMAC-SHA256 keyed by `api_secret`) and
`Content-Type: application/json`, and a body-less GET signs the empty string. -/
theorem v1_request_signing (api_key api_secret base_url : String) (tms : Nat)
    (nonce url request_body : String) :
    build_auth_headers api_key api_secret tms nonce request_body =
      [("X-Api-Key", api_key),
       ("X-Timestamp", toString tms),
       ("X-Nonce", nonce),
       ("X-Signature",
         hmacSha256Hex api_secret (specV1SigningInput api_key (toString tms) nonce request_body)),
       ("Content-Type", "application/json")] ∧
    (keyClient_get api_key api_secret base_url tms nonce url).headers =
      build_auth_headers api_key api_secret tms nonce "" ∧
    (keyClient_get api_key api_secret base_url tms nonce url).body = none ∧
    isLowerHex
      (hmacSha256Hex api_secret (specV1SigningInput api_key (toString tms) nonce request_body)) =
      true :=
  ⟨rfl, rfl, rfl, isLowerHex_hmac _ _⟩

/-- The concrete `OpenAPIKeyClientV2.request` PUT evaluated for claim C4. -/
def c4KeySentW : SentV2 :=
  (keyClientV2_request (J := List (String × String)) pyJsonDumpsStrDict "demo-key" "demo-secret"
      "http://h/api" 1700000001234 "nonce0" "PUT" "v1/item" none).toOption.getD
    ⟨⟨"", "", [], none⟩, ""⟩

/-- The concrete `OpenAPIKeyClientV2.request` DELETE evaluated for claim C4. -/
def c4KeyDelSentW : SentV2 :=
  (keyClientV2_request (J := List (String × String)) pyJsonDumpsStrDict "demo-key" "demo-secret"
      "http://h/api" 1700000001234 "nonce0" "DELETE" "v1/item" none).toOption.getD
    ⟨⟨"", "", [], none⟩, ""⟩

/-- The concrete `OpenAPITokenClientV2.request` PUT evaluated for claim C4. -/
def c4TokPutCallW : DispatchedCall :=
  (tokenClientV2_request (J := List (String × String)) pyJsonDumpsStrDict [] "http://h/api"
      "PUT" "v1/item" none).toOption.getD ⟨"", "", [], none⟩

/-- Claim C4 (code-bug evaluation): `OpenAPIKeyClientV2.request` emulates PUT as
a POST and DELETE as a GET but sends **no** `X-HTTP-Method-Override` header,
while still signing the logical method (the signing input starts with `PUT`);
the token clients (`OpenAPITokenClientV2.request`, `OpenAPITokenClient.put`,
`OpenAPITokenClient.delete`) do attach the override header as the claim says. -/
theorem keyv2_put_delete_lack_override :
    c4KeySentW.call.verb = "POST" ∧
    headerLookup "X-HTTP-Method-Override" c4KeySentW.call.headers = none ∧
    c4KeySentW.sign_text = "PUT/api/v1/itemdemo-key1700000001nonce0" ∧
    c4KeyDelSentW.call.verb = "GET" ∧
    headerLookup "X-HTTP-Method-Override" c4KeyDelSentW.call.headers = none ∧
    c4TokPutCallW.verb = "POST" ∧
    headerLookup "X-HTTP-Method-Override" c4TokPutCallW.headers = some "PUT" ∧
    headerLookup "X-HTTP-Method-Override"
        (tokenClient_put pyJsonDumpsStrDict "http://h/api" "v1/item" [("a", "1")]).headers =
      some "PUT" ∧
    headerLookup "X-HTTP-Method-Override" (tokenClient_delete "http://h/api" "v1/item").headers =
      some "DELETE" := by
  refine ⟨rfl, ?_, ?_, rfl, ?_, rfl, ?_, ?_, ?_⟩ <;> decide

/-- Claim C5: every client operation classifies the transport response the same
way: status `>= 400` fails with an error carrying the status code and the raw
body text, status `< 400` returns the JSON-decoded body when it decodes and the
raw text otherwise, never raising on a non-JSON body. -/
theorem response_classification {J : Type} (decode : String → Option J) (r : HTTPResponse) :
    (r.status_code ≥ 400 →
      classifyResponse decode r =
        Except.error ("HTTP " ++ toString r.status_code ++ ": " ++ r.text)) ∧
    (r.status_code < 400 →
      (∀ j, decode r.text = some j → classifyResponse decode r = Except.ok (RespValue.json j)) ∧
      (decode r.text = none → classifyResponse decode r = Except.ok (RespValue.text r.text))) ∧
    (∀ (transport : DispatchedCall → HTTPResponse) api_key api_secret base_url tms nonce url,
      keyClient_get_run decode transport api_key api_secret base_url tms nonce url =
        classifyResponse decode
          (transport (keyClient_get api_key api_secret base_url tms nonce url))) := by
  refine ⟨?_, ?_, fun transport k s b tms n u => rfl⟩
  · intro h
    simp [classifyResponse, h]
  · intro h
    have h4 : ¬ r.status_code ≥ 400 := by omega
    constructor
    · intro j hj
      simp [classifyResponse, h4, hj]
    · intro hn
      simp [classifyResponse, h4, hn]

theorem response_classification_witness :
    (404 ≥ 400) ∧
    classifyResponse (J := Nat) (fun _ => none) ⟨404, "not found"⟩ =
      Except.error "HTTP 404: not found" ∧
    (200 < 400) ∧
    classifyResponse (fun s => if s = "\x7b\"a\": 1\x7d" then some (1 : Nat) else none)
        ⟨200, "\x7b\"a\": 1\x7d"⟩ = Except.ok (RespValue.json 1) ∧
    classifyResponse (J := Nat) (fun _ => none) ⟨200, "not-json"⟩ =
      Except.ok (RespValue.text "not-json") :=
  ⟨by decide,
   (response_classification (J := Nat) (fun _ => none) ⟨404, "not found"⟩).1 (by decide),
   by decide,
   ((response_classification (fun s => if s = "\x7b\"a\": 1\x7d" then some (1 : Nat) else none)
       ⟨200, "\x7b\"a\": 1\x7d"⟩).2.1 (by decide)).1 1 (by decide),
   ((response_classification (J := Nat) (fun _ => none) ⟨200, "not-json"⟩).2.1 (by decide)).2 rfl⟩

/-- Claim C6 counterexample: `HttpClient` construction accepts proxy strings
with a zero or negative port — `"host:0"` and `"host:-7"` both configure a
proxy instead of failing, so construction does not require a positive port. -/
theorem proxy_port_zero_accepted :
    httpClientProxySetup (some "host:0") = Except.ok (some ("host", 0)) ∧
    httpClientProxySetup (some "host:-7") = Except.ok (some ("host", -7)) := by
  constructor <;> rfl

/-- Claim C6 (amended): construction with a present, non-empty `proxyAddress`
fails exactly when the string does not split at `':'` into two parts whose
second parses with `int()`; the parsed port may be zero or negative. -/
theorem proxy_validation (pa : String) (hne : pa ≠ "") :
    exceptIsError (httpClientProxySetup (some pa)) = true ↔
      ¬ ((pySplit (Char.ofNat 58) pa).length = 2 ∧
         (pyInt ((pySplit (Char.ofNat 58) pa).getD 1 "")).isSome = true) := by
  simp only [httpClientProxySetup, if_neg hne]
  by_cases hl : (pySplit (Char.ofNat 58) pa).length = 2
  · rw [if_pos hl]
    cases hp : pyInt ((pySplit (Char.ofNat 58) pa).getD 1 "") with
    | none => simp [exceptIsError, hl, hp]
    | some port => simp [exceptIsError, hl, hp]
  · rw [if_neg hl]
    simp [exceptIsError, hl]

theorem proxy_validation_witness :
    ("onlyhost" ≠ "") ∧ exceptIsError (httpClientProxySetup (some "onlyhost")) = true :=
  ⟨by decide, (proxy_validation "onlyhost" (by decide)).mpr (by decide)⟩

/-- Claim C7: an unset `socket_timeout` (resp. `connect_timeout`) resolves the
read (resp. connect) timeout to 60 seconds, and an omitted `ignore_ssl` defaults
to `True`, which disables TLS verification (`session.verify = False`). -/
theorem timeout_ssl_defaults (o : HttpClientOption) :
    (o.socket_timeout = none → (build_timeout o).2 = 60) ∧
    (o.connect_timeout = none → (build_timeout o).1 = 60) ∧
    (∀ header cookie pa st ct,
      (mkHttpClientOption header cookie pa st ct none).ignore_ssl = true ∧
      sessionVerify (mkHttpClientOption header cookie pa st ct none) = false) := by
  refine ⟨?_, ?_, fun header cookie pa st ct => ⟨rfl, rfl⟩⟩
  · intro h
    simp [build_timeout, pyTruthyInt, h, default_socket_timeout]
  · intro h
    simp [build_timeout, pyTruthyInt, h, default_connect_timeout]

theorem timeout_ssl_defaults_witness :
    ((mkHttpClientOption none none none none none none).socket_timeout = none) ∧
    (build_timeout (mkHttpClientOption none none none none none none)).2 = 60 ∧
    (build_timeout (mkHttpClientOption none none none none none none)).1 = 60 :=
  ⟨rfl, (timeout_ssl_defaults _).1 rfl, (timeout_ssl_defaults _).2.1 rfl⟩

/-- Claim C10: an explicit `socket_timeout`/`connect_timeout` of `0` is falsy in
Python, so timeout resolution treats it exactly like an unset value and yields
the 60-second default — `0` and absence are indistinguishable. -/
theorem timeout_zero_is_default (o : HttpClientOption) :
    (o.socket_timeout = some 0 → (build_timeout o).2 = 60) ∧
    (o.connect_timeout = some 0 → (build_timeout o).1 = 60) ∧
    build_timeout { o with socket_timeout := some 0, connect_timeout := some 0 } =
      build_timeout { o with socket_timeout := none, connect_timeout := none } := by
  refine ⟨?_, ?_, ?_⟩
  · intro h
    simp [build_timeout, pyTruthyInt, h, default_socket_timeout]
  · intro h
    simp [build_timeout, pyTruthyInt, h, default_connect_timeout]
  · simp [build_timeout, pyTruthyInt]

theorem timeout_zero_is_default_witness :
    ((mkHttpClientOption none none none (some 0) (some 0) none).socket_timeout = some 0) ∧
    (build_timeout (mkHttpClientOption none none none (some 0) (some 0) none)).2 = 60 ∧
    (build_timeout (mkHttpClientOption none none none (some 0) (some 0) none)).1 = 60 :=
  ⟨rfl, (timeout_zero_is_default _).1 rfl, (timeout_zero_is_default _).2.1 rfl⟩

/-- Claim C8: a `OpenAPIKeyClientV2.request` GET or DELETE with `data` present
signs a body hash over the JSON serialization of `data`, yet dispatches through
`HttpClient.get`, which transmits no body at all. -/
theorem v2_get_delete_signed_unsent_body {J : Type} (dumps : J → String)
    (api_key api_secret base_url : String) (tms : Nat) (nonce url : String)
    (d : J) (method : String)
    (hm : pyUpper method = "GET" ∨ pyUpper method = "DELETE") (hb : dumps d ≠ "")
    (sent : SentV2)
    (h : keyClientV2_request dumps api_key api_secret base_url tms nonce method url (some d) =
      Except.ok sent) :
    sent.call.verb = "GET" ∧ sent.call.body = none ∧
    sent.sign_text =
      pyUpper method ++ keyClientV2_path base_url url ++ api_key ++ toString (tms / 1000) ++
        nonce ++ sha256Hex (dumps d) := by
  have hbody : (if dumps d = "" then "" else sha256Hex (dumps d)) = sha256Hex (dumps d) :=
    if_neg hb
  simp only [keyClientV2_request] at h
  rcases hm with hm | hm
  · rw [if_pos hm] at h
    injection h with h2
    subst h2
    refine ⟨rfl, rfl, ?_⟩
    simp only [v2_sign_text, pyRequestBody, hbody]
  · have hg : ¬ pyUpper method = "GET" := by rw [hm]; decide
    have hp : ¬ pyUpper method = "POST" := by rw [hm]; decide
    have hpu : ¬ pyUpper method = "PUT" := by rw [hm]; decide
    rw [if_neg hg, if_neg hp, if_neg hpu, if_pos hm] at h
    injection h with h2
    subst h2
    refine ⟨rfl, rfl, ?_⟩
    simp only [v2_sign_text, pyRequestBody, hbody]

/-- The concrete GET-with-data request evaluated for claim C8. -/
def c8SentW : SentV2 :=
  (keyClientV2_request (J := List (String × String)) pyJsonDumpsStrDict "demo-key" "demo-secret"
      "http://h/api" 1700000001234 "nonce0" "GET" "v1/x" (some [("a", "1")])).toOption.getD
    ⟨⟨"", "", [], none⟩, ""⟩

theorem v2_get_delete_signed_unsent_body_witness :
    (pyUpper "GET" = "GET" ∨ pyUpper "GET" = "DELETE") ∧
    pyJsonDumpsStrDict [("a", "1")] ≠ "" ∧
    (c8SentW.call.verb = "GET" ∧ c8SentW.call.body = none ∧
      c8SentW.sign_text =
        pyUpper "GET" ++ keyClientV2_path "http://h/api" "v1/x" ++ "demo-key" ++
          toString (1700000001234 / 1000) ++ "nonce0" ++
          sha256Hex (pyJsonDumpsStrDict [("a", "1")])) :=
  ⟨Or.inl (by decide), by decide,
   v2_get_delete_signed_unsent_body pyJsonDumpsStrDict "demo-key" "demo-secret" "http://h/api"
     1700000001234 "nonce0" "v1/x" [("a", "1")] "GET" (Or.inl (by decide)) (by decide) c8SentW
     (except_ok_getD _ _ (by decide))⟩

/-- The left-curly-bracket character, written by code point to keep it out of
string literals. -/
def lcub : Char := Char.ofNat 123

theorem data_mk (l : List Char) : (String.mk l).data = l := rfl

theorem quotePlusChar_chars (ch : Char) : ∀ c ∈ quotePlusChar ch, c ≠ lcub := by
  unfold quotePlusChar
  by_cases h1 : ch = ' '
  · simp only [if_pos h1]
    intro c hc
    simp at hc
    subst hc
    decide
  · rw [if_neg h1]
    by_cases h2 : isUrlSafe ch = true
    · rw [if_pos h2]
      intro c hc
      simp at hc
      subst hc
      intro he
      rw [he] at h2
      revert h2
      decide
    · rw [if_neg h2]
      intro c hc
      simp only [List.mem_flatten, List.mem_map] at hc
      obtain ⟨piece, ⟨b, _, hpiece⟩, hcp⟩ := hc
      subst hpiece
      rcases List.mem_cons.mp hcp with hc1 | hc2
      · subst hc1; decide
      · simp only [hexPairU, List.mem_cons, List.mem_singleton] at hc2
        rcases hc2 with hc2 | hc2 | hc2
        · subst hc2; exact hexDigitU_ne_lcub _
        · subst hc2; exact hexDigitU_ne_lcub _
        · simp at hc2

theorem quotePlus_chars (s : String) : ∀ c ∈ (quotePlus s).data, c ≠ lcub := by
  intro c hc
  rw [quotePlus, data_mk] at hc
  simp only [List.mem_flatten, List.mem_map] at hc
  obtain ⟨piece, ⟨ch, _, hpiece⟩, hcp⟩ := hc
  subst hpiece
  exact quotePlusChar_chars ch c hcp

theorem urlencodeForm_chars (fields : List (String × String)) :
    ∀ c ∈ (urlencodeForm fields).data, c ≠ lcub := by
  induction fields with
  | nil =>
    intro c hc
    simp [urlencodeForm] at hc
  | cons kv rest ih =>
    intro c hc
    cases rest with
    | nil =>
      simp only [urlencodeForm, String.data_append, List.mem_append] at hc
      rcases hc with (hc | hc) | hc
      · exact quotePlus_chars kv.1 c hc
      · simp at hc; subst hc; decide
      · exact quotePlus_chars kv.2 c hc
    | cons kv2 rest2 =>
      simp only [urlencodeForm, String.data_append, List.mem_append] at hc ih
      rcases hc with (((hc | hc) | hc) | hc) | hc
      · exact quotePlus_chars kv.1 c hc
      · simp at hc; subst hc; decide
      · exact quotePlus_chars kv.2 c hc
      · simp at hc; subst hc; decide
      · exact ih c hc

theorem lcub_mem_pyJsonDumps (fields : List (String × String)) :
    lcub ∈ (pyJsonDumpsStrDict fields).data := by
  simp only [pyJsonDumpsStrDict, String.data_append, List.mem_append]
  left; left
  decide

/-- For any field mapping, the JSON rendering and the form-urlencoded rendering
are different strings (the first starts with a left curly bracket, which
urlencoding never emits). -/
theorem dumps_ne_urlencode (fields : List (String × String)) :
    pyJsonDumpsStrDict fields ≠ urlencodeForm fields := by
  intro he
  have h1 := lcub_mem_pyJsonDumps fields
  rw [he] at h1
  exact urlencodeForm_chars fields lcub h1 rfl

/-- Claim C9 (amended): `OpenAPIKeyClient.post_form` signs the V1 concatenation
over the JSON rendering of the fields while transmitting the form-urlencoded
rendering; the transmitted Content-Type is `application/json` (the V1 auth
headers override the form content type), and for a non-empty mapping the signed
body string differs from the transmitted body. -/
theorem post_form_sign_transmit_mismatch (api_key api_secret base_url : String) (tms : Nat)
    (nonce url : String) (fields : List (String × String)) :
    headerLookup "X-Signature"
        (keyClient_post_form api_key api_secret base_url tms nonce url fields).headers =
      some (hmacSha256Hex api_secret
        (specV1SigningInput api_key (toString tms) nonce (pyJsonDumpsStrDict fields))) ∧
    (keyClient_post_form api_key api_secret base_url tms nonce url fields).body =
      some (urlencodeForm fields) ∧
    headerLookup "Content-Type"
        (keyClient_post_form api_key api_secret base_url tms nonce url fields).headers =
      some "application/json" ∧
    (fields ≠ [] → pyJsonDumpsStrDict fields ≠ urlencodeForm fields) :=
  ⟨rfl, rfl, rfl, fun _ => dumps_ne_urlencode fields⟩

theorem post_form_sign_transmit_mismatch_witness :
    ([("a", "1")] ≠ ([] : List (String × String))) ∧
    pyJsonDumpsStrDict [("a", "1")] ≠ urlencodeForm [("a", "1")] :=
  ⟨by decide,
   (post_form_sign_transmit_mismatch "demo-key" "demo-secret" "http://h/api" 1700000001234
     "nonce0" "form" [("a", "1")]).2.2.2 (by decide)⟩

/-- Claim C9 counterexample: the POST issued by `OpenAPIKeyClient.post_form`
carries `Content-Type: application/json`, not the form-urlencoded content type
the claim asserts. -/
theorem post_form_content_type_json :
    headerLookup "Content-Type"
        (keyClient_post_form "demo-key" "demo-secret" "http://h/api" 1700000001234 "nonce0"
          "form" [("a", "1")]).headers = some "application/json" ∧
    ("application/json" : String) ≠ "application/x-www-form-urlencoded; charset=UTF-8" :=
  ⟨rfl, by decide⟩

end Airtom
